import Mathlib

/-!
Shallow embedding of the crm-analytics repository (RFM segmentation and CLV
prediction scripts: rfm_analytics.py, flo_rfm.py, clv_prediction.py,
flo_clv.py, clv.py).

Modelling conventions:
* pandas datetimes are integers counting minutes; `timedelta.days` is the
  floor of the difference divided by 1440 (minutes per day);
* numeric columns are lists of rationals (`List ℚ`), one entry per row;
* `pd.qcut` returns `Option` : `none` models the `ValueError` raised when
  the bin edges are not unique;
* `Series.replace(seg_map, regex=True)` on a two-digit score string is
  modelled by matching the two-character patterns against the digit pair,
  returning the first matching rule's label (`Option String`, `none` when
  no rule matches and the original string would be left in place);
* the hard-coded analysis dates (`dt.datetime(2011, 12, 11)` etc.) are
  passed as an explicit integer parameter `today` / `analysis_date`.
-/

/-- Days between two datetimes given in minutes, as Python `timedelta.days`,
i.e. the floor of the difference measured in days.  Source: `(a - b).days`. -/
def daysBetween (a b : Int) : Int := ⌊(((a - b : Int) : ℚ) / 1440)⌋

/-- Insert a rational into a sorted list (ascending). -/
def insertLe (x : ℚ) : List ℚ → List ℚ
  | [] => [x]
  | y :: ys => if x ≤ y then x :: y :: ys else y :: insertLe x ys

/-- Sort a list of rationals ascending (insertion sort). -/
def sortQ (xs : List ℚ) : List ℚ := xs.foldr insertLe []

/-- Pandas `Series.quantile(q)` with the default linear interpolation: on the
sorted values `s`, the position is `h = q * (n - 1)` and the result
interpolates between `s[floor h]` and `s[ceil h]`. -/
def quantile (xs : List ℚ) (q : ℚ) : ℚ :=
  let s := sortQ xs
  let h := q * ((s.length : ℚ) - 1)
  let a := s.getD (⌊h⌋).toNat 0
  let b := s.getD (⌈h⌉).toNat 0
  a + (h - (⌊h⌋ : ℚ)) * (b - a)

/-- Python's built-in `round(x, 0)`: round half to even, as used in
flo_clv.py's `replace_with_thresholds`. -/
def pyRound (x : ℚ) : Int :=
  let f := ⌊x⌋
  let r := x - (f : ℚ)
  if r < 1/2 then f
  else if 1/2 < r then f + 1
  else if f % 2 = 0 then f else f + 1

/-- Source: `outlier_thresholds` (clv_prediction.py lines 50-56, identical in
flo_clv.py lines 58-64): 1st and 99th percentile, `IQR = q3 - q1`,
returns `(low_limit, up_limit) = (q1 - 1.5*IQR, q3 + 1.5*IQR)`. -/
def outlier_thresholds (xs : List ℚ) : ℚ × ℚ :=
  let quartile1 := quantile xs (1/100)
  let quartile3 := quantile xs (99/100)
  let iqr := quartile3 - quartile1
  (quartile1 - 3/2 * iqr, quartile3 + 3/2 * iqr)

/-- Source: `replace_with_thresholds` (clv_prediction.py lines 59-62): the
low-limit assignment is commented out, only values above `up_limit` are
replaced, with exactly `up_limit`. -/
def replace_with_thresholds (xs : List ℚ) : List ℚ :=
  let t := outlier_thresholds xs
  xs.map (fun v => if t.2 < v then t.2 else v)

/-- Source: `replace_with_thresholds` in flo_clv.py (lines 66-69): first every
value below `low_limit` becomes `round(low_limit, 0)`, then (on the updated
column) every value above `up_limit` becomes `round(up_limit, 0)`. -/
def replace_with_thresholds_flo (xs : List ℚ) : List ℚ :=
  let t := outlier_thresholds xs
  let step1 := xs.map (fun v => if v < t.1 then ((pyRound t.1 : Int) : ℚ) else v)
  step1.map (fun v => if t.2 < v then ((pyRound t.2 : Int) : ℚ) else v)

/-- Quantile bin edges used by `pd.qcut(xs, k)`: the quantiles at
`0, 1/k, …, k/k`. -/
def qcutEdges (xs : List ℚ) (k : Nat) : List ℚ :=
  (List.range (k + 1)).map (fun (i : Nat) => quantile xs ((i : ℚ) / (k : ℚ)))

/-- Interior edges of a qcut binning (all edges except the first and last). -/
def interiorEdges (es : List ℚ) : List ℚ := (es.drop 1).dropLast

/-- Bin index of value `v` for edges `es`: the number of interior edges
strictly below `v`.  This matches pandas' right-closed intervals
`(e_j, e_{j+1}]` with `include_lowest=True` on the first bin. -/
def binOf (es : List ℚ) (v : ℚ) : Nat :=
  (interiorEdges es).countP (fun e => decide (e < v))

/-- Source: `pd.qcut(xs, k, labels=labels)`.  Returns `none` when the
computed bin edges are not unique (pandas raises
`ValueError: Bin edges must be unique`), otherwise the per-row labels. -/
def qcut (xs : List ℚ) (k : Nat) (labels : List Nat) : Option (List Nat) :=
  let es := qcutEdges xs k
  if es.Nodup then some (xs.map (fun v => labels.getD (binOf es v) 0)) else none

/-- Rank of row `i` under pandas `Series.rank(method="first")`: one plus the
number of strictly smaller values plus the number of equal values at earlier
positions. -/
def rankOf (xs : List ℚ) (i : Nat) : Nat :=
  xs.countP (fun v => decide (v < xs.getD i 0)) +
    (xs.take i).countP (fun v => decide (v = xs.getD i 0)) + 1

/-- Source: `Series.rank(method="first")` applied to a numeric column. -/
def rankFirst (xs : List ℚ) : List ℚ :=
  (List.range xs.length).map (fun i => ((rankOf xs i : Nat) : ℚ))

/-- A regex character-class pattern over score digits: each position is an
inclusive digit range, e.g. `[1-2]5` becomes `[(1,2),(5,5)]`. -/
def pmatch (p : List (Nat × Nat)) (s : List Nat) : Bool :=
  decide (p.length = s.length) &&
    (p.zip s).all (fun pc => decide (pc.1.1 ≤ pc.2) && decide (pc.2 ≤ pc.1.2))

/-- Source: `seg_map` (rfm_analytics.py lines 179-190, identically flo_rfm.py
lines 137-148 and 252-263).  Note the label `"at_Risk"` with a capital R. -/
def seg_map : List (List (Nat × Nat) × String) :=
  [([(1,2),(1,2)], "hibernating"),
   ([(1,2),(3,4)], "at_Risk"),
   ([(1,2),(5,5)], "cant_loose"),
   ([(3,3),(1,2)], "about_to_sleep"),
   ([(3,3),(3,3)], "need_attention"),
   ([(3,4),(4,5)], "loyal_customers"),
   ([(4,4),(1,1)], "promising"),
   ([(5,5),(1,1)], "new_customers"),
   ([(4,5),(2,3)], "potential_loyalists"),
   ([(5,5),(4,5)], "champions")]

/-- Source: the `seg_map` dictionary inside `create_rfm`
(rfm_analytics.py lines 253-264); identical patterns but the second label is
spelled `"at_risk"`. -/
def seg_map_fn : List (List (Nat × Nat) × String) :=
  [([(1,2),(1,2)], "hibernating"),
   ([(1,2),(3,4)], "at_risk"),
   ([(1,2),(5,5)], "cant_loose"),
   ([(3,3),(1,2)], "about_to_sleep"),
   ([(3,3),(3,3)], "need_attention"),
   ([(3,4),(4,5)], "loyal_customers"),
   ([(4,4),(1,1)], "promising"),
   ([(5,5),(1,1)], "new_customers"),
   ([(4,5),(2,3)], "potential_loyalists"),
   ([(5,5),(4,5)], "champions")]

/-- Source: `rfm['RFM_SCORE'].replace(seg_map, regex=True)` on a two-digit
score: the label of the first rule whose pattern matches, `none` when no
rule matches (the raw score string would then be left unreplaced). -/
def segmentOf (m : List (List (Nat × Nat) × String)) (s : List Nat) : Option String :=
  (m.find? (fun r => pmatch r.1 s)).map (fun r => r.2)

/-- Digits a 1-5 quantile score can take. -/
def scoreDigits : List Nat := [1, 2, 3, 4, 5]

/-- Online Retail transaction row (one line of the spreadsheet after typing):
invoice id as a character list, customer id, quantity, unit price, invoice
datetime in minutes. -/
structure Row where
  invoice : List Char
  customerId : Nat
  quantity : Int
  price : ℚ
  invoiceDate : Int
deriving DecidableEq

/-- Source: data preparation of rfm_analytics.py (lines 232-233, also 95-98):
rows whose invoice contains a `C` are dropped; there is no filter on
quantity or price. -/
def prep_rfm (df : List Row) : List Row :=
  df.filter (fun r => !(decide ('C' ∈ r.invoice)))

/-- Source: data preparation of clv_prediction.py (lines 72-77, also 295-298):
drop invoices containing `C`, keep only positive quantity and price. -/
def prep_clv (df : List Row) : List Row :=
  ((df.filter (fun r => !(decide ('C' ∈ r.invoice)))).filter
      (fun r => decide (0 < r.quantity))).filter (fun r => decide (0 < r.price))

/-- Source: data preparation of clv.py (lines 48-55, also 153-155): drop
invoices containing `C`, keep only positive quantity; no price filter. -/
def prep_cltv (df : List Row) : List Row :=
  (df.filter (fun r => !(decide ('C' ∈ r.invoice)))).filter
    (fun r => decide (0 < r.quantity))

/-- Rows of one customer, `df.groupby('Customer ID')` member selection. -/
def rowsOf (df : List Row) (c : Nat) : List Row :=
  df.filter (fun r => decide (r.customerId = c))

/-- Distinct customer ids appearing in the data, in first-appearance order. -/
def customers (df : List Row) : List Nat :=
  (df.map (fun r => r.customerId)).dedup

/-- Latest invoice datetime of a list of rows, `InvoiceDate.max()`. -/
def maxDate : List Row → Int
  | [] => 0
  | [r] => r.invoiceDate
  | r :: r' :: rs => max r.invoiceDate (maxDate (r' :: rs))

/-- Earliest invoice datetime of a list of rows, `InvoiceDate.min()`. -/
def minDate : List Row → Int
  | [] => 0
  | [r] => r.invoiceDate
  | r :: r' :: rs => min r.invoiceDate (minDate (r' :: rs))

/-- Number of distinct invoices, `Invoice.nunique()`. -/
def nuniqueInvoice (rs : List Row) : Nat :=
  ((rs.map (fun r => r.invoice)).dedup).length

/-- Sum of `Quantity * Price` over the rows, `TotalPrice.sum()`. -/
def sumTotal (rs : List Row) : ℚ :=
  (rs.map (fun r => (r.quantity : ℚ) * r.price)).sum

/-- Per-customer RFM metric record (rfm_analytics.py lines 237-240). -/
structure RFMRec where
  customerId : Nat
  recency : Int
  frequency : Nat
  monetary : ℚ
deriving DecidableEq

/-- Source: the RFM aggregation of rfm_analytics.py (lines 122-128 and
237-240): `recency = (today_date - InvoiceDate.max()).days`,
`frequency = Invoice.nunique()`, `monetary = TotalPrice.sum()`. -/
def rfmRec (today : Int) (df : List Row) (c : Nat) : RFMRec :=
  { customerId := c
    recency := daysBetween today (maxDate (rowsOf df c))
    frequency := nuniqueInvoice (rowsOf df c)
    monetary := sumTotal (rowsOf df c) }

/-- RFM metric table: one record per distinct customer. -/
def rfmMetrics (today : Int) (df : List Row) : List RFMRec :=
  (customers df).map (rfmRec today df)

/-- Scored and segmented output record of `create_rfm`
(rfm_analytics.py line 267 keeps recency, frequency, monetary, segment). -/
structure ScoredRec where
  customerId : Nat
  recency : Int
  frequency : Nat
  monetary : ℚ
  segment : String
deriving DecidableEq

/-- Source: `create_rfm` (rfm_analytics.py lines 228-274): preparation,
aggregation, the `monetary > 0` filter, the three `pd.qcut` scores (recency
labelled 5..1, frequency ranked first then labelled 1..5, monetary labelled
1..5), and segmentation of the recency-frequency score pair through the
function's own `seg_map` (label `"at_risk"`).  `none` models a `qcut`
failure aborting the function. -/
def create_rfm (today : Int) (df0 : List Row) : Option (List ScoredRec) :=
  let df := prep_rfm df0
  let recs := (rfmMetrics today df).filter (fun r => decide (0 < r.monetary))
  match qcut (recs.map (fun r => ((r.recency : Int) : ℚ))) 5 [5, 4, 3, 2, 1],
        qcut (rankFirst (recs.map (fun r => ((r.frequency : Nat) : ℚ)))) 5 [1, 2, 3, 4, 5],
        qcut (recs.map (fun r => r.monetary)) 5 [1, 2, 3, 4, 5] with
  | some rs, some fs, some _ms =>
      some ((recs.zip (rs.zip fs)).map (fun p =>
        { customerId := p.1.customerId
          recency := p.1.recency
          frequency := p.1.frequency
          monetary := p.1.monetary
          segment := (segmentOf seg_map_fn [p.2.1, p.2.2]).getD
            (Nat.repr p.2.1 ++ Nat.repr p.2.2) }))
  | _, _, _ => none

/-- Per-customer CLV metric record (clv_prediction.py lines 102-129). -/
structure CLVRec where
  customerId : Nat
  recency : ℚ
  T : ℚ
  frequency : Nat
  monetary : ℚ
deriving DecidableEq

/-- Source: the per-customer CLV aggregation of clv_prediction.py
(lines 102-120): `recency = (InvoiceDate.max() - InvoiceDate.min()).days`,
`T = (analysis_date - InvoiceDate.min()).days`,
`frequency = Invoice.nunique()`,
`monetary = TotalPrice.sum() / frequency`. -/
def clvRec (analysisDate : Int) (df : List Row) (c : Nat) : CLVRec :=
  { customerId := c
    recency := ((daysBetween (maxDate (rowsOf df c)) (minDate (rowsOf df c)) : Int) : ℚ)
    T := ((daysBetween analysisDate (minDate (rowsOf df c)) : Int) : ℚ)
    frequency := nuniqueInvoice (rowsOf df c)
    monetary := sumTotal (rowsOf df c) / ((nuniqueInvoice (rowsOf df c) : Nat) : ℚ) }

/-- Source: `clv_df` of clv_prediction.py (lines 102-129, identically
`create_clv_period` lines 304-316): aggregate, keep `frequency > 1`, then
express recency and T weekly (divide by 7).  This list is exactly the data
handed to `bgf.fit` (lines 141-143). -/
def clv_df (analysisDate : Int) (df : List Row) : List CLVRec :=
  (((customers df).map (clvRec analysisDate df)).filter
      (fun r => decide (1 < r.frequency))).map
    (fun r => { r with recency := r.recency / 7, T := r.T / 7 })

/-- FLO customer row (flo_data_20K.csv): dates in minutes, order counts and
purchase totals as float columns. -/
structure FloRow where
  masterId : String
  firstOrderDate : Int
  lastOrderDate : Int
  orderNumOnline : ℚ
  orderNumOffline : ℚ
  valueOffline : ℚ
  valueOnline : ℚ
deriving DecidableEq

/-- Apply flo_clv.py's `replace_with_thresholds` to one column of a FLO
table: thresholds are computed from the current column, then every row's
value is updated. -/
def clipFloColumn (get : FloRow → ℚ) (set : FloRow → ℚ → FloRow)
    (rows : List FloRow) : List FloRow :=
  let xs := replace_with_thresholds_flo (rows.map get)
  (rows.zip xs).map (fun p => set p.1 p.2)

/-- Source: flo_clv.py lines 75-77 (identically lines 226-228): clip the four
numeric columns in order with `replace_with_thresholds`. -/
def floPrep (rows : List FloRow) : List FloRow :=
  let r1 := clipFloColumn (fun r => r.orderNumOnline)
    (fun r v => { r with orderNumOnline := v }) rows
  let r2 := clipFloColumn (fun r => r.orderNumOffline)
    (fun r v => { r with orderNumOffline := v }) r1
  let r3 := clipFloColumn (fun r => r.valueOffline)
    (fun r v => { r with valueOffline := v }) r2
  clipFloColumn (fun r => r.valueOnline)
    (fun r v => { r with valueOnline := v }) r3

/-- Per-customer CLV record of the FLO pipeline (flo_clv.py lines 101-109). -/
structure CLVRecF where
  customerId : String
  recencyW : ℚ
  TW : ℚ
  frequency : ℚ
  monetaryAvg : ℚ
deriving DecidableEq

/-- One FLO customer row turned into the CLV record of flo_clv.py
lines 102-109 / 240-244: weekly recency between first and last order, weekly
T between first order and the analysis date, total order count, value per
order. -/
def floClvRec (analysisDate : Int) (r : FloRow) : CLVRecF :=
  { customerId := r.masterId
    recencyW := ((daysBetween r.lastOrderDate r.firstOrderDate : Int) : ℚ) / 7
    TW := ((daysBetween analysisDate r.firstOrderDate : Int) : ℚ) / 7
    frequency := r.orderNumOnline + r.orderNumOffline
    monetaryAvg := (r.valueOffline + r.valueOnline) /
      (r.orderNumOnline + r.orderNumOffline) }

/-- Source: the module-level flo_clv.py flow (lines 75-109): clip the four
columns, build `clv_df`.  No `frequency > 1` filter is applied before this
table is handed to `bgf.fit` (lines 120-123). -/
def floClvDfModule (analysisDate : Int) (rows : List FloRow) : List CLVRecF :=
  (floPrep rows).map (floClvRec analysisDate)

/-- Frequency column passed to `bgf.fit` by the module-level flo_clv.py flow
(lines 121-123). -/
def floFitFreqsModule (analysisDate : Int) (rows : List FloRow) : List ℚ :=
  (floClvDfModule analysisDate rows).map (fun r => r.frequency)

/-- Source: `create_clv_df` (flo_clv.py lines 223-245 up to the frequency
filter): clip the four columns, apply the row filter of line 232
(keep rows with `customer_value_total ≠ 0` or `order_num_total = 0`,
the `~`-negation applying only to the first comparison), build the records,
keep `frequency > 1`.  The result is the table fitted at lines 249-251. -/
def floCreateClvDf (analysisDate : Int) (rows0 : List FloRow) : List CLVRecF :=
  let rows := floPrep rows0
  let rows := rows.filter (fun r =>
    !(decide (r.valueOffline + r.valueOnline = 0)) ||
      decide (r.orderNumOnline + r.orderNumOffline = 0))
  (rows.map (floClvRec analysisDate)).filter (fun r => decide (1 < r.frequency))

/-- Example column for the outlier-clipper counterexample: one value `-4`
followed by seventy zeros. -/
def exCol : List ℚ := (-4 : ℚ) :: List.replicate 70 0

/-- Example FLO table: three customers, the first with a single order in
total. -/
def exFloRows : List FloRow :=
  [{ masterId := "m1", firstOrderDate := 0, lastOrderDate := 1440,
     orderNumOnline := 1, orderNumOffline := 0, valueOffline := 0,
     valueOnline := 10 },
   { masterId := "m2", firstOrderDate := 0, lastOrderDate := 2880,
     orderNumOnline := 2, orderNumOffline := 0, valueOffline := 0,
     valueOnline := 20 },
   { masterId := "m3", firstOrderDate := 0, lastOrderDate := 4320,
     orderNumOnline := 2, orderNumOffline := 0, valueOffline := 0,
     valueOnline := 20 }]

/-- Example Online Retail data: five customers, one invoice each, pairwise
distinct recencies and monetary totals (so all three qcut calls succeed). -/
def exDf5 : List Row :=
  [{ invoice := ['A'], customerId := 1, quantity := 1, price := 10, invoiceDate := 0 },
   { invoice := ['B'], customerId := 2, quantity := 1, price := 20, invoiceDate := 14400 },
   { invoice := ['D'], customerId := 3, quantity := 1, price := 30, invoiceDate := 28800 },
   { invoice := ['E'], customerId := 4, quantity := 1, price := 40, invoiceDate := 43200 },
   { invoice := ['F'], customerId := 5, quantity := 1, price := 50, invoiceDate := 57600 }]

/-- Analysis datetime used with `exDf5`. -/
def exToday : Int := 72000

/-- Output table of `create_rfm` on the example data. -/
def exRfmOut : List ScoredRec := (create_rfm exToday exDf5).getD []

/-- First record of the example `create_rfm` output. -/
def exScored0 : ScoredRec :=
  exRfmOut.headD
    { customerId := 0, recency := 0, frequency := 0, monetary := 0, segment := "" }

/-- Example Online Retail data with one repeat customer (frequency 2), used
for the CLV-mode witnesses. -/
def exDfClv : List Row :=
  [{ invoice := ['A'], customerId := 1, quantity := 2, price := 5, invoiceDate := 0 },
   { invoice := ['B'], customerId := 1, quantity := 1, price := 3, invoiceDate := 14400 }]

/-- First record of `clv_df` on the repeat-customer example. -/
def exClvRec0 : CLVRec :=
  (clv_df 100000 exDfClv).headD
    { customerId := 0, recency := 0, T := 0, frequency := 0, monetary := 0 }

/-- First record of the module-level FLO CLV table on the example FLO data. -/
def exFloRec0 : CLVRecF :=
  (floClvDfModule 100000 exFloRows).headD
    { customerId := "", recencyW := 0, TW := 0, frequency := 0, monetaryAvg := 0 }

/-- Example row with a negative quantity and an invoice without a C. -/
def exRowNeg : Row :=
  { invoice := ['A'], customerId := 7, quantity := -5, price := 10, invoiceDate := 0 }

/-- Example valid row. -/
def exRowGood : Row :=
  { invoice := ['A'], customerId := 1, quantity := 2, price := 5, invoiceDate := 0 }

/-- Example scored population for the quantile-scoring witness. -/
def exPop : List ℚ := [10, 20, 30, 40, 50]

/-- Labels enumerated by the specification for the segment classifier
(spec section 4.4); note the all-lowercase `"at_risk"`. -/
def specLabelSet : List String :=
  ["hibernating", "at_risk", "cant_loose", "about_to_sleep",
   "need_attention", "loyal_customers", "promising", "new_customers",
   "potential_loyalists", "champions"]

/-- Labels actually produced by the `seg_map` of rfm_analytics.py lines
179-190 and flo_rfm.py (capital-R `"at_Risk"`). -/
def codeLabelSet : List String :=
  ["hibernating", "at_Risk", "cant_loose", "about_to_sleep",
   "need_attention", "loyal_customers", "promising", "new_customers",
   "potential_loyalists", "champions"]

/-- Positional image of `List.getD` under `map`, for an in-range index. -/
theorem getD_map_lem {α β : Type} (f : α → β) (l : List α) (i : Nat)
    (h : i < l.length) (d : α) (d2 : β) :
    (l.map f).getD i d2 = f (l.getD i d) := by
  simp [List.getD_eq_getElem?_getD, List.getElem?_map, List.getElem?_eq_getElem h]

/-- Bin assignment is monotone in the value. -/
theorem binOf_mono (es : List ℚ) {v w : ℚ} (h : v ≤ w) :
    binOf es v ≤ binOf es w := by
  apply List.countP_mono_left
  intro a _ ha
  simp only [decide_eq_true_eq] at ha ⊢
  exact lt_of_lt_of_le ha h

/-- Length of the interior edge list of a qcut binning. -/
theorem interiorEdges_qcutEdges_length (xs : List ℚ) (k : Nat) :
    (interiorEdges (qcutEdges xs k)).length = k - 1 := by
  unfold interiorEdges qcutEdges
  rw [List.length_dropLast, List.length_drop, List.length_map, List.length_range]
  omega

/-- Bins are indexed below the bucket count. -/
theorem binOf_le (xs : List ℚ) (k : Nat) (v : ℚ) :
    binOf (qcutEdges xs k) v ≤ k - 1 := by
  have h : binOf (qcutEdges xs k) v ≤ (interiorEdges (qcutEdges xs k)).length :=
    List.countP_le_length _
  rw [interiorEdges_qcutEdges_length] at h
  exact h

/-- Successful qcut output restated as a positional map. -/
theorem qcut_eq_some {xs : List ℚ} {k : Nat} {labels out : List Nat}
    (h : qcut xs k labels = some out) :
    out = xs.map (fun v => labels.getD (binOf (qcutEdges xs k) v) 0) := by
  simp only [qcut] at h
  split at h
  · exact (Option.some.inj h).symm
  · cases h

/-- Successful qcut preserves the column length. -/
theorem qcut_length {xs : List ℚ} {k : Nat} {labels out : List Nat}
    (h : qcut xs k labels = some out) : out.length = xs.length := by
  rw [qcut_eq_some h, List.length_map]

/-- Score of row `i` of a successful qcut. -/
theorem qcut_getD {xs : List ℚ} {k : Nat} {labels out : List Nat}
    (h : qcut xs k labels = some out) {i : Nat} (hi : i < xs.length) :
    out.getD i 0 = labels.getD (binOf (qcutEdges xs k) (xs.getD i 0)) 0 := by
  rw [qcut_eq_some h]
  exact getD_map_lem _ _ _ hi 0 0

/-- Descending label list evaluated at a bin index. -/
theorem getD_desc {b : Nat} (hb : b ≤ 4) :
    ([5, 4, 3, 2, 1] : List Nat).getD b 0 = 5 - b := by
  interval_cases b <;> rfl

/-- Ascending label list evaluated at a bin index. -/
theorem getD_asc {b : Nat} (hb : b ≤ 4) :
    ([1, 2, 3, 4, 5] : List Nat).getD b 0 = b + 1 := by
  interval_cases b <;> rfl

/-- Counting values below a smaller pivot plus ties at that pivot never
exceeds the count below a larger pivot. -/
theorem countP_lt_add_eq_le {vi vj : ℚ} (h : vi < vj) (l : List ℚ) :
    l.countP (fun v => decide (v < vi)) + l.countP (fun v => decide (v = vi))
      ≤ l.countP (fun v => decide (v < vj)) := by
  induction l with
  | nil => simp
  | cons a l ih =>
    simp only [List.countP_cons]
    by_cases c2 : a = vi
    · have c1 : ¬ a < vi := by rw [c2]; exact lt_irrefl vi
      simp [c1, c2, h]
      omega
    · by_cases c1 : a < vi
      · have c3 : a < vj := c1.trans h
        simp [c1, c2, c3]
        omega
      · by_cases c3 : a < vj
        · simp [c1, c2, c3]
          omega
        · simp [c1, c2, c3]
          omega

/-- Rank with tie-breaking by position is monotone in the lexicographic
order on (value, position). -/
theorem rankOf_mono {xs : List ℚ} {i j : Nat}
    (h : xs.getD i 0 < xs.getD j 0 ∨ (xs.getD i 0 = xs.getD j 0 ∧ i ≤ j)) :
    rankOf xs i ≤ rankOf xs j := by
  rcases h with h | ⟨he, hij⟩
  · unfold rankOf
    have h1 : (xs.take i).countP (fun v => decide (v = xs.getD i 0))
        ≤ xs.countP (fun v => decide (v = xs.getD i 0)) :=
      List.Sublist.countP_le _ (List.take_sublist i xs)
    have h2 := countP_lt_add_eq_le h xs
    omega
  · unfold rankOf
    rw [he]
    have h1 : (xs.take i).countP (fun v => decide (v = xs.getD j 0))
        ≤ (xs.take j).countP (fun v => decide (v = xs.getD j 0)) := by
      have ht : xs.take i = (xs.take j).take i := by
        rw [List.take_take, Nat.min_eq_left hij]
      rw [ht]
      exact List.Sublist.countP_le _ (List.take_sublist i (xs.take j))
    omega

/-- Rank column evaluated at an in-range position. -/
theorem rankFirst_getD {xs : List ℚ} {i : Nat} (hi : i < xs.length) :
    (rankFirst xs).getD i 0 = ((rankOf xs i : Nat) : ℚ) := by
  unfold rankFirst
  rw [getD_map_lem (fun n => ((rankOf xs n : Nat) : ℚ)) (List.range xs.length) i
    (by simpa using hi) 0 0]
  congr 1
  simp [List.getD_eq_getElem?_getD, List.getElem?_range hi]

/-- Length of the rank column. -/
theorem rankFirst_length (xs : List ℚ) : (rankFirst xs).length = xs.length := by
  simp [rankFirst]

/-- Maximum invoice date is bounded by any upper bound of the dates. -/
theorem maxDate_le {a : Int} :
    ∀ (rs : List Row), rs ≠ [] → (∀ r ∈ rs, r.invoiceDate ≤ a) →
      maxDate rs ≤ a
  | [], h, _ => absurd rfl h
  | [r], _, hall => by simpa [maxDate] using hall r (by simp)
  | r :: r' :: rs, _, hall => by
    have ih := maxDate_le (r' :: rs) (by simp)
      (fun x hx => hall x (List.mem_cons_of_mem _ hx))
    simp only [maxDate, max_le_iff]
    exact ⟨hall r (by simp), ih⟩

/-- Floor-of-days is monotone in the later endpoint. -/
theorem daysBetween_mono {a b c : Int} (h : a ≤ b) :
    daysBetween a c ≤ daysBetween b c := by
  apply Int.floor_mono
  have hc : ((a - c : Int) : ℚ) ≤ ((b - c : Int) : ℚ) := by
    exact_mod_cast sub_le_sub_right h c
  exact div_le_div_of_nonneg_right hc (by norm_num)

/-- Column clipping preserves the two date fields of every surviving row. -/
theorem mem_clipFloColumn_dates {get : FloRow → ℚ} {set : FloRow → ℚ → FloRow}
    {rows : List FloRow} {r' : FloRow} (h : r' ∈ clipFloColumn get set rows)
    (hset : ∀ r v, (set r v).firstOrderDate = r.firstOrderDate ∧
      (set r v).lastOrderDate = r.lastOrderDate) :
    ∃ r ∈ rows, r'.firstOrderDate = r.firstOrderDate ∧
      r'.lastOrderDate = r.lastOrderDate := by
  unfold clipFloColumn at h
  obtain ⟨p, hp, rfl⟩ := List.mem_map.mp h
  exact ⟨p.1, (List.of_mem_zip hp).1, (hset p.1 p.2).1, (hset p.1 p.2).2⟩

/-- The full FLO preparation (four column clips) preserves the dates of every
surviving row. -/
theorem mem_floPrep_dates {rows : List FloRow} {r' : FloRow}
    (h : r' ∈ floPrep rows) :
    ∃ r ∈ rows, r'.firstOrderDate = r.firstOrderDate ∧
      r'.lastOrderDate = r.lastOrderDate := by
  simp only [floPrep] at h
  obtain ⟨r3, h3, e3a, e3b⟩ := mem_clipFloColumn_dates h (fun r v => ⟨rfl, rfl⟩)
  obtain ⟨r2, h2, e2a, e2b⟩ := mem_clipFloColumn_dates h3 (fun r v => ⟨rfl, rfl⟩)
  obtain ⟨r1, h1, e1a, e1b⟩ := mem_clipFloColumn_dates h2 (fun r v => ⟨rfl, rfl⟩)
  obtain ⟨r0, h0, e0a, e0b⟩ := mem_clipFloColumn_dates h1 (fun r v => ⟨rfl, rfl⟩)
  exact ⟨r0, h0, by rw [e3a, e2a, e1a, e0a], by rw [e3b, e2b, e1b, e0b]⟩

/-- A list whose head is a character contains that character. -/
theorem head?_mem {l : List Char} {c : Char} (h : l.head? = some c) : c ∈ l := by
  cases l with
  | nil => cases h
  | cons a t =>
    simp only [List.head?_cons, Option.some.injEq] at h
    rw [← h]
    exact List.mem_cons_self a t

/-- Customers listed for a data set have at least one row. -/
theorem rowsOf_ne_nil {df : List Row} {c : Nat} (hc : c ∈ customers df) :
    rowsOf df c ≠ [] := by
  unfold customers at hc
  obtain ⟨r, hr, hrc⟩ := List.mem_map.mp (List.mem_dedup.mp hc)
  have : r ∈ rowsOf df c := List.mem_filter.mpr ⟨hr, by simpa using hrc⟩
  exact List.ne_nil_of_mem this

/-- C1: every two-digit score whose digits are drawn from 1..5 is matched by
exactly one of the ten (pattern, label) rules of the segment map — both for
the module-level `seg_map` and the `create_rfm` variant, whose patterns are
identical.  The ten patterns jointly cover all 25 combinations and no
combination is matched by two rules. -/
theorem C1_classifier_exactly_one :
    ∀ d1 ∈ scoreDigits, ∀ d2 ∈ scoreDigits,
      seg_map.countP (fun r => pmatch r.1 [d1, d2]) = 1 ∧
      seg_map_fn.countP (fun r => pmatch r.1 [d1, d2]) = 1 := by decide

theorem C1_witness :
    seg_map.countP (fun r => pmatch r.1 [5, 5]) = 1 ∧
    seg_map_fn.countP (fun r => pmatch r.1 [5, 5]) = 1 :=
  C1_classifier_exactly_one 5 (by decide) 5 (by decide)

/-- C2 counterexample: the classifier cited by the claim (the `seg_map` of
rfm_analytics.py lines 179-194 and flo_rfm.py lines 137-151) maps the score
"13" to the label "at_Risk", which is not in the enumerated label set of the
claim (whose second element is the all-lowercase "at_risk"). -/
theorem C2_counterexample :
    segmentOf seg_map [1, 3] = some "at_Risk" ∧
    "at_Risk" ∉ specLabelSet := by decide

/-- C2 amended: every reachable score pair is assigned exactly one label; for
the module-level `seg_map` (rfm_analytics.py / flo_rfm.py) the label lies in
the enumerated set with "at_Risk" (capital R), while for the map inside
`create_rfm` it lies in the claimed set with "at_risk"; moreover "55" maps to
"champions", "11" to "hibernating" and "33" to "need_attention". -/
theorem C2_amended :
    (∀ d1 ∈ scoreDigits, ∀ d2 ∈ scoreDigits,
      seg_map.countP (fun r => pmatch r.1 [d1, d2]) = 1 ∧
      (segmentOf seg_map [d1, d2]).isSome = true ∧
      (segmentOf seg_map [d1, d2]).getD "x" ∈ codeLabelSet ∧
      (segmentOf seg_map_fn [d1, d2]).getD "x" ∈ specLabelSet) ∧
    segmentOf seg_map [5, 5] = some "champions" ∧
    segmentOf seg_map [1, 1] = some "hibernating" ∧
    segmentOf seg_map [3, 3] = some "need_attention" := by decide

theorem C2_witness :
    seg_map.countP (fun r => pmatch r.1 [1, 3]) = 1 ∧
    (segmentOf seg_map [1, 3]).isSome = true ∧
    (segmentOf seg_map [1, 3]).getD "x" ∈ codeLabelSet ∧
    (segmentOf seg_map_fn [1, 3]).getD "x" ∈ specLabelSet :=
  C2_amended.1 1 (by decide) 3 (by decide)

/-- C9: quantile binning fails (models the pandas ValueError, the spec's
DegenerateDistributionError) exactly when the requested bin edges are not
pairwise distinct, rather than silently producing fewer bins; and the error
branch is reached on a column of six identical values. -/
theorem C9_degenerate_bins (xs : List ℚ) (k : Nat) (labels : List Nat) :
    (qcut xs k labels = none ↔ ¬ (qcutEdges xs k).Nodup) ∧
    qcut [(1 : ℚ), 1, 1, 1, 1, 1] 5 [1, 2, 3, 4, 5] = none := by
  constructor
  · simp only [qcut]
    split <;> simp_all
  · decide!

theorem C9_witness : qcut [(1 : ℚ), 1, 1, 1, 1, 1] 5 [1, 2, 3, 4, 5] = none :=
  (C9_degenerate_bins [1, 1, 1, 1, 1, 1] 5 [1, 2, 3, 4, 5]).1.mpr (by decide!)

/-- C3: for every customer record, the metric aggregator computes, in RFM
mode, recency as whole days from the latest invoice date to the analysis
date, frequency as the distinct invoice count and monetary as the sum of
quantity times unit price; in CLV mode, recency as whole days from first to
last invoice date, T as whole days from first invoice date to the analysis
date, monetary as that sum divided by frequency, with recency and T divided
by 7 in the table handed to the estimators. -/
theorem C3_metric_aggregator (today analysisDate : Int) (df : List Row) :
    (∀ rec ∈ rfmMetrics today df,
      rec.recency = daysBetween today (maxDate (rowsOf df rec.customerId)) ∧
      rec.frequency = nuniqueInvoice (rowsOf df rec.customerId) ∧
      rec.monetary = sumTotal (rowsOf df rec.customerId)) ∧
    (∀ rec ∈ clv_df analysisDate df,
      rec.recency = ((daysBetween (maxDate (rowsOf df rec.customerId))
          (minDate (rowsOf df rec.customerId)) : Int) : ℚ) / 7 ∧
      rec.T = ((daysBetween analysisDate (minDate (rowsOf df rec.customerId)) : Int) : ℚ) / 7 ∧
      rec.frequency = nuniqueInvoice (rowsOf df rec.customerId) ∧
      rec.monetary = sumTotal (rowsOf df rec.customerId) /
        ((nuniqueInvoice (rowsOf df rec.customerId) : Nat) : ℚ)) := by
  constructor
  · intro rec hrec
    obtain ⟨c, hc, rfl⟩ := List.mem_map.mp hrec
    exact ⟨rfl, rfl, rfl⟩
  · intro rec hrec
    obtain ⟨r, hr, rfl⟩ := List.mem_map.mp hrec
    obtain ⟨hr2, hpos⟩ := List.mem_filter.mp hr
    obtain ⟨c, hc, rfl⟩ := List.mem_map.mp hr2
    exact ⟨rfl, rfl, rfl, rfl⟩

theorem C3_witness :
    (rfmRec exToday exDf5 1).recency
        = daysBetween exToday (maxDate (rowsOf exDf5 (rfmRec exToday exDf5 1).customerId)) ∧
    (rfmRec exToday exDf5 1).frequency
        = nuniqueInvoice (rowsOf exDf5 (rfmRec exToday exDf5 1).customerId) ∧
    (rfmRec exToday exDf5 1).monetary
        = sumTotal (rowsOf exDf5 (rfmRec exToday exDf5 1).customerId) :=
  (C3_metric_aggregator exToday 0 exDf5).1 (rfmRec exToday exDf5 1) (by decide!)

/-- C4 counterexample: on the column with one -4 and seventy zeros, the low
threshold is -3 and the flo_clv.py clipper changes the -4 entry to -3, so the
monetary-variant clipper does clip values below the low threshold, contrary
to the claim. -/
theorem C4_counterexample :
    (outlier_thresholds exCol).1 = -3 ∧
    exCol.getD 0 0 = -4 ∧
    exCol.getD 0 0 < (outlier_thresholds exCol).1 ∧
    (replace_with_thresholds_flo exCol).getD 0 0 = -3 := by decide!

/-- C4 amended: the clv_prediction.py clipper replaces exactly the values
strictly above the high threshold with exactly that threshold and leaves all
other values (including those below the low threshold) unchanged; the
flo_clv.py clipper first replaces values strictly below the low threshold by
the low threshold rounded half-to-even to an integer and then values
strictly above the high threshold by the rounded high threshold. -/
theorem C4_amended (xs : List ℚ) (i : Nat) (hi : i < xs.length) :
    (replace_with_thresholds xs).getD i 0 =
      (if (outlier_thresholds xs).2 < xs.getD i 0 then (outlier_thresholds xs).2
       else xs.getD i 0) ∧
    (replace_with_thresholds_flo xs).getD i 0 =
      (if (outlier_thresholds xs).2 <
          (if xs.getD i 0 < (outlier_thresholds xs).1
           then ((pyRound (outlier_thresholds xs).1 : Int) : ℚ) else xs.getD i 0)
       then ((pyRound (outlier_thresholds xs).2 : Int) : ℚ)
       else (if xs.getD i 0 < (outlier_thresholds xs).1
             then ((pyRound (outlier_thresholds xs).1 : Int) : ℚ) else xs.getD i 0)) := by
  constructor
  · simp only [replace_with_thresholds]
    exact getD_map_lem _ _ _ hi 0 0
  · simp only [replace_with_thresholds_flo]
    rw [getD_map_lem _ _ _ (by simpa using hi) 0 0, getD_map_lem _ _ _ hi 0 0]

theorem C4_witness : (replace_with_thresholds [(0 : ℚ)]).getD 0 0 = 0 :=
  (C4_amended [(0 : ℚ)] 0 (by decide)).1.trans (by decide!)

/-- C6: in CLV mode T is at least recency, for the Online Retail pipeline
whenever the analysis date bounds every invoice date, and for the FLO
pipeline whenever the analysis date bounds every last-order date; the common
division by 7 preserves the inequality. -/
theorem C6_T_ge_recency (analysisDate : Int) (df : List Row)
    (hdf : ∀ r ∈ df, r.invoiceDate ≤ analysisDate)
    (rows : List FloRow)
    (hrows : ∀ r ∈ rows, r.lastOrderDate ≤ analysisDate) :
    (∀ rec ∈ clv_df analysisDate df, rec.recency ≤ rec.T) ∧
    (∀ rec ∈ floClvDfModule analysisDate rows, rec.recencyW ≤ rec.TW) := by
  constructor
  · intro rec hrec
    obtain ⟨r, hr, rfl⟩ := List.mem_map.mp hrec
    obtain ⟨hr2, hpos⟩ := List.mem_filter.mp hr
    obtain ⟨c, hc, rfl⟩ := List.mem_map.mp hr2
    simp only [clvRec]
    have hmax : maxDate (rowsOf df c) ≤ analysisDate :=
      maxDate_le _ (rowsOf_ne_nil hc)
        (fun x hx => hdf x (List.mem_of_mem_filter hx))
    have hdb : daysBetween (maxDate (rowsOf df c)) (minDate (rowsOf df c))
        ≤ daysBetween analysisDate (minDate (rowsOf df c)) :=
      daysBetween_mono hmax
    have hcast : ((daysBetween (maxDate (rowsOf df c)) (minDate (rowsOf df c)) : Int) : ℚ)
        ≤ ((daysBetween analysisDate (minDate (rowsOf df c)) : Int) : ℚ) := by
      exact_mod_cast hdb
    exact div_le_div_of_nonneg_right hcast (by norm_num) |>.trans_eq rfl
  · intro rec hrec
    obtain ⟨r, hr, rfl⟩ := List.mem_map.mp hrec
    obtain ⟨r0, hr0, e1, e2⟩ := mem_floPrep_dates hr
    have hlast : r.lastOrderDate ≤ analysisDate := by
      rw [e2]; exact hrows r0 hr0
    simp only [floClvRec]
    have hdb : daysBetween r.lastOrderDate r.firstOrderDate
        ≤ daysBetween analysisDate r.firstOrderDate := daysBetween_mono hlast
    have hcast : ((daysBetween r.lastOrderDate r.firstOrderDate : Int) : ℚ)
        ≤ ((daysBetween analysisDate r.firstOrderDate : Int) : ℚ) := by
      exact_mod_cast hdb
    exact div_le_div_of_nonneg_right hcast (by norm_num)

theorem C6_witness :
    exClvRec0.recency ≤ exClvRec0.T ∧ exFloRec0.recencyW ≤ exFloRec0.TW :=
  ⟨(C6_T_ge_recency 100000 exDfClv (by decide) exFloRows (by decide)).1
      exClvRec0 (by decide!),
   (C6_T_ge_recency 100000 exDfClv (by decide) exFloRows (by decide)).2
      exFloRec0 (by decide!)⟩

/-- C7 counterexample: a row with negative quantity and an invoice without a
C survives the data preparation of the Online Retail RFM pipeline, which
therefore does not exclude non-positive quantity/price rows before
aggregation. -/
theorem C7_counterexample :
    exRowNeg ∈ prep_rfm [exRowNeg] ∧ exRowNeg.quantity ≤ 0 := by decide!

/-- C7 amended: every pipeline that aggregates raw transaction rows excludes
cancellation rows (invoice carrying the C marker, which the source removes
via a contains-C filter, a superset of the prefix test); but only the
CLV-prediction pipeline also excludes non-positive quantity and price rows;
clv.py excludes only non-positive quantities, and the Online Retail RFM
pipeline excludes neither before aggregation. -/
theorem C7_amended (df : List Row) :
    (∀ r ∈ prep_rfm df, r.invoice.head? ≠ some 'C') ∧
    (∀ r ∈ prep_clv df,
      r.invoice.head? ≠ some 'C' ∧ 0 < r.quantity ∧ 0 < r.price) ∧
    (∀ r ∈ prep_cltv df, r.invoice.head? ≠ some 'C' ∧ 0 < r.quantity) := by
  refine ⟨?_, ?_, ?_⟩
  · intro r hr
    obtain ⟨hmem, hc⟩ := List.mem_filter.mp hr
    intro hh
    simp only [Bool.not_eq_true', decide_eq_false_iff_not] at hc
    exact hc (head?_mem hh)
  · intro r hr
    obtain ⟨hr2, hp⟩ := List.mem_filter.mp hr
    obtain ⟨hr3, hq⟩ := List.mem_filter.mp hr2
    obtain ⟨hmem, hc⟩ := List.mem_filter.mp hr3
    simp only [Bool.not_eq_true', decide_eq_false_iff_not] at hc
    simp only [decide_eq_true_eq] at hp hq
    exact ⟨fun hh => hc (head?_mem hh), hq, hp⟩
  · intro r hr
    obtain ⟨hr2, hq⟩ := List.mem_filter.mp hr
    obtain ⟨hmem, hc⟩ := List.mem_filter.mp hr2
    simp only [Bool.not_eq_true', decide_eq_false_iff_not] at hc
    simp only [decide_eq_true_eq] at hq
    exact ⟨fun hh => hc (head?_mem hh), hq⟩

theorem C7_witness :
    exRowGood.invoice.head? ≠ some 'C' ∧
    0 < exRowGood.quantity ∧ 0 < exRowGood.price :=
  (C7_amended [exRowGood]).2.1 exRowGood (by decide!)

/-- C8 counterexample: on the population [7, 7, 1, 2, 3] the frequency score
column is [4, 5, 1, 2, 3]; row 1 has raw value less than or equal to row 0
(they are tied at 7) yet its frequency score 5 exceeds row 0's score 4, so
the claimed monotonicity fails on ties because of the positional
rank(method="first") tie-break. -/
theorem C8_counterexample :
    qcut (rankFirst [7, 7, 1, 2, 3]) 5 [1, 2, 3, 4, 5] = some [4, 5, 1, 2, 3] ∧
    ([7, 7, 1, 2, 3] : List ℚ).getD 1 0 ≤ ([7, 7, 1, 2, 3] : List ℚ).getD 0 0 ∧
    ¬ (([4, 5, 1, 2, 3] : List Nat).getD 1 0
        ≤ ([4, 5, 1, 2, 3] : List Nat).getD 0 0) := by decide!

/-- C8 amended: quantile scoring is order-preserving in the claimed label
directions for the recency column (labels 5 down to 1) and the monetary
column (labels 1 up to 5), ties included; for the frequency column, which is
first ranked with method="first", the scores are monotone between rows with
strictly different raw values, and between tied raw values only from the
earlier position to the later one. -/
theorem C8_amended (xs : List ℚ) (i j : Nat) (hi : i < xs.length)
    (hj : j < xs.length) (rOut mOut fOut : List Nat)
    (hr : qcut xs 5 [5, 4, 3, 2, 1] = some rOut)
    (hm : qcut xs 5 [1, 2, 3, 4, 5] = some mOut)
    (hf : qcut (rankFirst xs) 5 [1, 2, 3, 4, 5] = some fOut) :
    (xs.getD i 0 ≤ xs.getD j 0 →
      rOut.getD j 0 ≤ rOut.getD i 0 ∧ mOut.getD i 0 ≤ mOut.getD j 0) ∧
    ((xs.getD i 0 < xs.getD j 0 ∨ (xs.getD i 0 = xs.getD j 0 ∧ i ≤ j)) →
      fOut.getD i 0 ≤ fOut.getD j 0) := by
  have hb : ∀ v, binOf (qcutEdges xs 5) v ≤ 4 := fun v => binOf_le xs 5 v
  have hb2 : ∀ v, binOf (qcutEdges (rankFirst xs) 5) v ≤ 4 := fun v =>
    binOf_le (rankFirst xs) 5 v
  constructor
  · intro hle
    have hmono := binOf_mono (qcutEdges xs 5) hle
    constructor
    · rw [qcut_getD hr hi, qcut_getD hr hj, getD_desc (hb _), getD_desc (hb _)]
      omega
    · rw [qcut_getD hm hi, qcut_getD hm hj, getD_asc (hb _), getD_asc (hb _)]
      omega
  · intro hlex
    have hrank : rankOf xs i ≤ rankOf xs j := rankOf_mono hlex
    have hcast : ((rankOf xs i : Nat) : ℚ) ≤ ((rankOf xs j : Nat) : ℚ) := by
      exact_mod_cast hrank
    have hi2 : i < (rankFirst xs).length := by rw [rankFirst_length]; exact hi
    have hj2 : j < (rankFirst xs).length := by rw [rankFirst_length]; exact hj
    rw [qcut_getD hf hi2, qcut_getD hf hj2, rankFirst_getD hi, rankFirst_getD hj,
      getD_asc (hb2 _), getD_asc (hb2 _)]
    have hmono := binOf_mono (qcutEdges (rankFirst xs) 5) hcast
    omega

theorem C8_witness :
    ([1, 2, 3, 4, 5] : List Nat).getD 0 0 ≤ ([1, 2, 3, 4, 5] : List Nat).getD 1 0 :=
  (C8_amended exPop 0 1 (by decide) (by decide)
      [5, 4, 3, 2, 1] [1, 2, 3, 4, 5] [1, 2, 3, 4, 5]
      (by decide!) (by decide!) (by decide!)).2 (Or.inl (by decide!))

/-- Every element of the first list appears as the first component of a zip
pair when the second list is at least as long. -/
theorem exists_mem_zip {α β : Type} {l1 : List α} {l2 : List β} {a : α}
    (ha : a ∈ l1) (hlen : l1.length ≤ l2.length) :
    ∃ b : β, (a, b) ∈ l1.zip l2 := by
  obtain ⟨i, hi, rfl⟩ := List.getElem_of_mem ha
  have hi2 : i < l2.length := by omega
  have hz : i < (l1.zip l2).length := by
    rw [List.length_zip]; omega
  refine ⟨l2[i], ?_⟩
  have hget : (l1.zip l2)[i] = (l1[i], l2[i]) := List.getElem_zip
  exact hget ▸ List.getElem_mem hz

/-- C10: every record in a successfully returned create_rfm table has
strictly positive monetary, and its monetary is exactly the aggregated total
of its customer, so customers with non-positive totals are absent rather
than present with a zero value. -/
theorem C10_monetary_positive (today : Int) (df : List Row)
    (out : List ScoredRec) (hout : create_rfm today df = some out) :
    ∀ rec ∈ out, 0 < rec.monetary ∧
      rec.monetary = sumTotal (rowsOf (prep_rfm df) rec.customerId) := by
  simp only [create_rfm] at hout
  split at hout
  · injection hout with h
    subst h
    intro rec hrec
    obtain ⟨p, hp, rfl⟩ := List.mem_map.mp hrec
    have h1 := (List.of_mem_zip hp).1
    obtain ⟨hmem, hpos⟩ := List.mem_filter.mp h1
    obtain ⟨c, hc, hceq⟩ := List.mem_map.mp hmem
    simp only [decide_eq_true_eq] at hpos
    refine ⟨hpos, ?_⟩
    show p.1.monetary = sumTotal (rowsOf (prep_rfm df) p.1.customerId)
    rw [← hceq]
    rfl
  · exact Option.noConfusion hout


theorem C10_witness :
    0 < exScored0.monetary ∧
    exScored0.monetary = sumTotal (rowsOf (prep_rfm exDf5) exScored0.customerId) :=
  C10_monetary_positive exToday exDf5 exRfmOut (by decide!) exScored0 (by decide!)

/-- C5 counterexample: in the module-level flo_clv.py flow, a customer with
total order count 1 is present in the frequency column handed to bgf.fit, so
frequency-1 records are not excluded from that CLV fit. -/
theorem C5_counterexample :
    (floFitFreqsModule 100000 exFloRows).getD 0 0 = 1 ∧
    (1 : ℚ) ∈ floFitFreqsModule 100000 exFloRows := by decide!

/-- C5 amended: a customer with frequency at most 1 (and positive monetary)
is retained, scored and segmented by the RFM pipeline; the Online Retail CLV
pipeline and flo_clv's create_clv_df exclude frequency-at-most-1 records
from the table handed to the purchase-count estimator, but the module-level
flo_clv.py flow does not (see the counterexample). -/
theorem C5_frequency_filter (today analysisDate : Int) (df : List Row)
    (rows : List FloRow) (out : List ScoredRec)
    (hout : create_rfm today df = some out) (c : Nat)
    (hc : c ∈ customers (prep_rfm df))
    (hfreq : nuniqueInvoice (rowsOf (prep_rfm df) c) ≤ 1)
    (hmon : 0 < sumTotal (rowsOf (prep_rfm df) c)) :
    (∃ rec ∈ out, rec.customerId = c ∧ rec.frequency ≤ 1) ∧
    (∀ rec ∈ clv_df analysisDate df, 1 < rec.frequency) ∧
    (∀ rec ∈ floCreateClvDf analysisDate rows, 1 < rec.frequency) := by
  refine ⟨?_, ?_, ?_⟩
  · simp only [create_rfm] at hout
    split at hout
    case _ rs fs ms heq1 heq2 heq3 =>
      injection hout with h
      subst h
      have hmem : rfmRec today (prep_rfm df) c ∈
          (rfmMetrics today (prep_rfm df)).filter
            (fun r => decide (0 < r.monetary)) := by
        apply List.mem_filter.mpr
        exact ⟨List.mem_map_of_mem _ hc, by simpa using hmon⟩
      have hlen : ((rfmMetrics today (prep_rfm df)).filter
          (fun r => decide (0 < r.monetary))).length ≤ (rs.zip fs).length := by
        have h1 := qcut_length heq1
        have h2 := qcut_length heq2
        rw [List.length_map] at h1
        rw [rankFirst_length, List.length_map] at h2
        rw [List.length_zip]
        omega
      obtain ⟨b, hb⟩ := exists_mem_zip hmem hlen
      refine ⟨_, List.mem_map_of_mem _ hb, rfl, hfreq⟩
    case _ => exact Option.noConfusion hout
  · intro rec hrec
    obtain ⟨r, hr, rfl⟩ := List.mem_map.mp hrec
    obtain ⟨hr2, hpos⟩ := List.mem_filter.mp hr
    simpa using hpos
  · intro rec hrec
    obtain ⟨hr2, hpos⟩ := List.mem_filter.mp hrec
    simpa using hpos

theorem C5_witness :
    (∃ rec ∈ exRfmOut, rec.customerId = 1 ∧ rec.frequency ≤ 1) ∧
    (∀ rec ∈ clv_df 100000 exDf5, 1 < rec.frequency) ∧
    (∀ rec ∈ floCreateClvDf 100000 exFloRows, 1 < rec.frequency) :=
  C5_frequency_filter exToday 100000 exDf5 exFloRows exRfmOut (by decide!) 1
    (by decide!) (by decide!) (by decide!)
